import Mathlib

/-!
Verification of the gateway session engine in `clamor/gateway/connector.py`
(`DiscordWebsocketClient`): a shallow embedding of the connection state, the
frame-decoding receive path, the heartbeat monitor, and the identify/resume
command builders, together with theorems about their behaviour.
-/

namespace Clamor

/-- Minimal JSON value model, covering all payloads built by the client. -/
inductive Json where
  | null
  | bool (b : Bool)
  | num (n : Int)
  | str (s : String)
  | arr (xs : List Json)
  | obj (fields : List (String × Json))

/-- Field lookup in a JSON object's field list (first match wins, as in a
Python dict where keys are unique). -/
def lookupField : List (String × Json) → String → Option Json
  | [], _ => none
  | (k, v) :: fs, key => if k = key then some v else lookupField fs key

mutual

/-- Minimal model of Python `json.dumps` (default separators) on the payload
values the client builds. -/
def Json.dumps : Json → String
  | Json.null => "null"
  | Json.bool b => cond b "true" "false"
  | Json.num n => toString n
  | Json.str s => "\"" ++ s ++ "\""
  | Json.arr xs => "[" ++ Json.dumpsArr xs ++ "]"
  | Json.obj fs => "\x7b" ++ Json.dumpsObj fs ++ "\x7d"

def Json.dumpsArr : List Json → String
  | [] => ""
  | [x] => Json.dumps x
  | x :: xs => Json.dumps x ++ ", " ++ Json.dumpsArr xs

def Json.dumpsObj : List (String × Json) → String
  | [] => ""
  | [(k, v)] => "\"" ++ k ++ "\": " ++ Json.dumps v
  | (k, v) :: fs => "\"" ++ k ++ "\": " ++ Json.dumps v ++ ", " ++ Json.dumpsObj fs

end

/-- Modelled from the spec: the codec abstraction of `clamor/gateway/encoding.py`
(not among the provided sources) is keyed by a format name; `ENCODERS` holds a
`json` and an `etf` entry, and each encoder exposes a wire-format name `TYPE`
used in the connection URL. -/
inductive Encoding where
  | json
  | etf

def Encoding.type : Encoding → String
  | Encoding.json => "json"
  | Encoding.etf => "etf"

/-- One raw transport frame, as returned by `self._con.get_message()`:
either text or a byte string (bytes modelled as a list of byte values). -/
inductive Raw where
  | text (s : String)
  | bytes (b : List Nat)

/-- A decoded gateway message: the wire envelope
`op` / `t` (event type) / `s` (sequence) / `d` (payload).
`s = none` models an absent or null sequence field. -/
structure Message where
  op : Int
  t : Option String
  s : Option Int
  d : Json

/-- Python truthiness of an optional integer field, as tested by
`message.get('s')` and `if self.shard_id and self.shard_count`:
falsy when absent/None and when zero. -/
def pyTruthy : Option Int → Bool
  | none => false
  | some n => n != 0

def jsonOfOptInt : Option Int → Json
  | none => Json.null
  | some n => Json.num n

/-- The mutable state of a `DiscordWebsocketClient` instance, one field per
attribute set in `__init__` (connection handles and the task group are
elided; `running` models `_running`). -/
structure ClientState where
  url : String
  encoding : Encoding
  zlibCompressed : Bool
  buffer : List Nat
  running : Bool
  shardId : Option Int
  shardCount : Option Int
  interval : Int
  lastSequence : Option Int
  hasAck : Bool
  sessionId : Json
  token : String

/-- `ZLIB_SUFFIX = b'\x00\x00\xff\xff'`. -/
def zlibSuffix : List Nat := [0, 0, 255, 255]

def endsWithZlibSuffix (b : List Nat) : Bool := zlibSuffix.isSuffixOf b

/-- `format_url` appends `/?v=6&encoding=<TYPE>` and, when compression is on,
`&compress=zlib-stream`. -/
def formatUrl (url : String) (enc : Encoding) (comp : Bool) : String :=
  url ++ "/?v=6&encoding=" ++ enc.type ++ (if comp then "&compress=zlib-stream" else "")

/-- `DiscordWebsocketClient.__init__`: initial attribute values. -/
def initClient (url : String) (encoding : Encoding) (zlibCompressed : Bool)
    (shardId shardCount : Option Int) : ClientState :=
  { url := formatUrl url encoding zlibCompressed
    encoding := encoding
    zlibCompressed := zlibCompressed
    buffer := []
    running := false
    shardId := shardId
    shardCount := shardCount
    interval := 0
    lastSequence := none
    hasAck := true
    sessionId := Json.num 0
    token := "" }

/-- Errors on the receive path.  `encodingError` models the `EncodingError`
raised by `_receive` (carrying `str(e)` of the original decode failure);
`pyError` models Python runtime errors raised outside the `try` block
(`TypeError` / `IndexError` / `zlib.error` on the decompression stages). -/
inductive RecvError where
  | encodingError (msg : String)
  | pyError (msg : String)

/-- The decompression / buffering stage of `_receive` (lines 109-115).
`inflate` models `self.inflator.decompress` on the full reassembly buffer,
`oneShot` models `zlib.decompress(message, 15, TEN_MEGABYTES)`; `none`
models the zlib call raising.  Returns the state after buffer mutations
together with the value bound to `message` when control reaches the `try`
block, or an error when a Python exception is raised first. -/
def preprocess (inflate oneShot : List Nat → Option String)
    (st : ClientState) (frame : Raw) : ClientState × Except RecvError Raw :=
  if st.zlibCompressed then
    match frame with
    | Raw.text _ =>
      (st, Except.error (RecvError.pyError "TypeError: a bytes-like object is required"))
    | Raw.bytes b =>
      if endsWithZlibSuffix (st.buffer ++ b) then
        match inflate (st.buffer ++ b) with
        | some s => ({ st with buffer := [] }, Except.ok (Raw.text s))
        | none =>
          ({ st with buffer := st.buffer ++ b }, Except.error (RecvError.pyError "zlib.error"))
      else
        ({ st with buffer := st.buffer ++ b }, Except.ok frame)
  else
    match frame with
    | Raw.text s =>
      match s.data with
      | [] => (st, Except.error (RecvError.pyError "IndexError: string index out of range"))
      | c :: _ =>
        if c = Char.ofNat 123 then (st, Except.ok frame)
        else (st, Except.error (RecvError.pyError "TypeError: a bytes-like object is required"))
    | Raw.bytes b =>
      match b with
      | [] => (st, Except.error (RecvError.pyError "IndexError: index out of range"))
      | x :: _ =>
        if x = 131 then (st, Except.ok frame)
        else
          match oneShot b with
          | some s => (st, Except.ok (Raw.text s))
          | none => (st, Except.error (RecvError.pyError "zlib.error"))

/-- Lines 122-123 of `_receive`:
`if message.get('s'): self._last_sequence = message['s']`. -/
def applySequence (st : ClientState) (m : Message) : ClientState :=
  if pyTruthy m.s then { st with lastSequence := m.s } else st

/-- `_receive`, one frame: decompression/buffering, then the codec decode
(`dec` models `self.encoder.decode`; a raised decode exception becomes an
`EncodingError` carrying its message), then the sequence update. -/
def receiveStep (dec : Raw → Except String Message)
    (inflate oneShot : List Nat → Option String)
    (st : ClientState) (frame : Raw) : ClientState × Except RecvError Message :=
  match preprocess inflate oneShot st frame with
  | (st₁, Except.error e) => (st₁, Except.error e)
  | (st₁, Except.ok r) =>
    match dec r with
    | Except.error e => (st₁, Except.error (RecvError.encodingError e))
    | Except.ok m => (applySequence st₁ m, Except.ok m)

/-- Key under which `_receive_task` emits a decoded message:
the event type `t` for opcode 0, the opcode otherwise. -/
inductive EmitKey where
  | event (t : Option String)
  | op (n : Int)

/-- Line 173-176 of `_receive_task`: choose the emit key and payload. -/
def dispatchMessage (m : Message) : EmitKey × Json :=
  if m.op = 0 then (EmitKey.event m.t, m.d) else (EmitKey.op m.op, m.d)

/-- Result of running `_receive_task` over a finite list of incoming frames:
final state, events emitted in order, and the error that escaped the loop,
if any (no exception handler exists in `_receive_task`). -/
structure RecvLoopResult where
  st : ClientState
  emitted : List (EmitKey × Json)
  failure : Option RecvError

/-- `_receive_task` over a finite frame list: each iteration checks
`self._running`, receives one frame and emits the decoded message; an
exception raised by `_receive` is not caught and terminates the loop. -/
def receiveTask (dec : Raw → Except String Message)
    (inflate oneShot : List Nat → Option String) :
    ClientState → List Raw → RecvLoopResult
  | st, [] => ⟨st, [], none⟩
  | st, f :: fs =>
    if st.running then
      match receiveStep dec inflate oneShot st f with
      | (st₁, Except.error e) => ⟨st₁, [], some e⟩
      | (st₁, Except.ok m) =>
        let r := receiveTask dec inflate oneShot st₁ fs
        ⟨r.st, dispatchMessage m :: r.emitted, r.failure⟩
    else ⟨st, [], none⟩

/-- Lines 122-123 folded over a message list (the sequence-update side effect
of the dispatch path, applied once per decoded message). -/
def processSequence (st : ClientState) (msgs : List Message) : ClientState :=
  msgs.foldl applySequence st

/-- Modelled from the spec: the opcode table of `clamor/gateway/opcodes.py`
(not among the provided sources); §6 lists
DISPATCH=0, HEARTBEAT=1, IDENTIFY=2, RESUME=6, HELLO=10, HEARTBEAT_ACK=11.
`none` models a `KeyError` on an unknown name. -/
def opcodes : String → Option Int
  | "DISPATCH" => some 0
  | "HEARTBEAT" => some 1
  | "IDENTIFY" => some 2
  | "RESUME" => some 6
  | "HELLO" => some 10
  | "HEARTBEAT_ACK" => some 11
  | _ => none

/-- `_send`'s `opcode` argument: `Union[int, str]`. -/
inductive OpArg where
  | int (n : Int)
  | name (s : String)

/-- Lines 130-131 of `_send`: string opcodes are resolved through the
opcode table, integers pass through. -/
def resolveOpcode : OpArg → Option Int
  | OpArg.int n => some n
  | OpArg.name s => opcodes s

/-- Lines 132-135 of `_send`: the payload wrapper. -/
def envelopeFields (op : Int) (d : Json) : List (String × Json) :=
  [("op", Json.num op), ("d", d)]

/-- `_send`: the text handed to `self._con.send` — always
`json.dumps(payload)`, whatever `self.encoder` is; `none` models the
`KeyError` raised when a string opcode is unknown. -/
def sendFrame (st : ClientState) (op : OpArg) (d : Json) : Option String :=
  (resolveOpcode op).map (fun n => Json.dumps (Json.obj (envelopeFields n d)))

/-- Negation of `_has_ack`, the spec's `awaitingAck`: the monitor is
awaiting an acknowledgement exactly when the last beat has not been
acknowledged. -/
def awaitingAck (st : ClientState) : Bool := !st.hasAck

/-- What one heartbeat tick does after the sleep:
either `_send(1, _last_sequence)` or `resume()`. -/
inductive HBAction where
  | sendHeartbeat (seq : Option Int)
  | triggerResume

/-- Lines 158-163 of `_heartbeat`, the body of one tick after
`anyio.sleep(self._interval / 1000)`. -/
def heartbeatTick (st : ClientState) : ClientState × HBAction :=
  if st.hasAck then
    ({ st with hasAck := false }, HBAction.sendHeartbeat st.lastSequence)
  else
    (st, HBAction.triggerResume)

/-- `_on_heartbeat_ack` (lines 144-145): `self._has_ack = True`. -/
def onHeartbeatAck (st : ClientState) : ClientState := { st with hasAck := true }

/-- `_on_hello` (lines 139-142): records the heartbeat interval (the task
spawn is modelled separately); note that `_has_ack` is not touched. -/
def onHello (st : ClientState) (heartbeatInterval : Int) : ClientState :=
  { st with interval := heartbeatInterval }

/-- `_on_ready` (lines 147-148): records `data["session_id"]`;
`none` models the `KeyError` when the field is missing. -/
def onReady (st : ClientState) (d : Json) : Option ClientState :=
  match d with
  | Json.obj fs => (lookupField fs "session_id").map (fun v => { st with sessionId := v })
  | _ => none

/-- `_identify` (lines 182-194): the identify payload's fields, in dict
insertion order; `osName` models `platform.system()`.  The `shard` entry is
appended only when `self.shard_id and self.shard_count` is truthy. -/
def identifyFields (osName : String) (st : ClientState) : List (String × Json) :=
  let base : List (String × Json) :=
    [("token", Json.str st.token),
     ("properties", Json.obj
       [("$os", Json.str osName),
        ("$browser", Json.str "clamor"),
        ("$device", Json.str "clamor")]),
     ("compress", Json.bool true),
     ("large_threshold", Json.num 250)]
  if pyTruthy st.shardId && pyTruthy st.shardCount then
    base ++ [("shard", Json.arr [jsonOfOptInt st.shardId, jsonOfOptInt st.shardCount])]
  else base

/-- Lines 238-242 of `resume`: the resume payload's fields, built from the
state current when the payload dict is constructed. -/
def resumePayloadFields (st : ClientState) : List (String × Json) :=
  [("token", Json.str st.token),
   ("session_id", st.sessionId),
   ("seq", jsonOfOptInt st.lastSequence)]

/-- Observable actions of the connection-lifecycle procedures. -/
inductive Action where
  | cancelTasks
  | openConn
  | send (op : String) (d : Json)
  | spawnReceiveLoop
  | spawnHeartbeatLoop

/-- `close` (lines 250-252): clear `_running`, cancel the task group. -/
def closeStep (st : ClientState) : ClientState × List Action :=
  ({ st with running := false }, [Action.cancelTasks])

/-- `on_open` (lines 197-206): spawn `_receive_task` and `_identify`; the
spawned `_identify` sends the identify command, shown here as its send. -/
def onOpenTrace (osName : String) (st : ClientState) : List Action :=
  [Action.spawnReceiveLoop, Action.send "IDENTIFY" (Json.obj (identifyFields osName st))]

/-- `on_resume` (lines 208-217): spawn `_heartbeat_task` and
`_receive_task`.  Defined by the source but never called by it. -/
def onResumeTrace : List Action :=
  [Action.spawnHeartbeatLoop, Action.spawnReceiveLoop]

/-- `resume` (lines 230-244): close if running, open a new connection,
send the resume payload, then call `on_open`. -/
def resumeTrace (osName : String) (st : ClientState) : List Action :=
  let p := if st.running then closeStep st else (st, [])
  let st₂ := { p.1 with running := true }
  p.2 ++ [Action.openConn, Action.send "RESUME" (Json.obj (resumePayloadFields st₂))]
    ++ onOpenTrace osName st₂

def isSpawnHeartbeat : Action → Bool
  | Action.spawnHeartbeatLoop => true
  | _ => false

def sendOpName : Action → Option String
  | Action.send op _ => some op
  | _ => none

/-! Concrete fixtures used by the closed scenario theorems below. -/

/-- The decode-failure message Python's JSON codec produces on non-JSON
input; used as the error of the concrete test codec. -/
def jsonErrMsg : String := "Expecting value: line 1 column 1 (char 0)"

def okText : String := "\x7bok\x7d"

def readyMsg : Message := { op := 0, t := some "READY", s := some 1, d := Json.null }

/-- A concrete instance of the spec's pluggable codec, used for the closed
scenarios: accepts exactly the text `okText` and rejects everything else
(in particular raw compressed bytes) with the JSON codec's message. -/
def decCtx : Raw → Except String Message
  | Raw.text s => if s = okText then Except.ok readyMsg else Except.error jsonErrMsg
  | Raw.bytes _ => Except.error jsonErrMsg

def chunk1 : List Nat := [120, 156, 1]
def chunk2 : List Nat := [2, 3]
def chunk3 : List Nat := [4, 0, 0, 255, 255]

/-- Concrete streaming decompressor: yields `okText` exactly on the full
three-chunk buffer. -/
def inflateCtx : List Nat → Option String :=
  fun b => if b = chunk1 ++ chunk2 ++ chunk3 then some okText else none

def oneShotCtx : List Nat → Option String := fun _ => none

/-- A compressed, running client (state after `connect` set `_running`). -/
def stComp : ClientState :=
  { initClient "wss://gateway.discord.gg" Encoding.json true none none with running := true }

/-- An uncompressed, running client. -/
def stRun : ClientState :=
  { initClient "wss://gateway.discord.gg" Encoding.json false none none with running := true }

def c2step1 : ClientState × Except RecvError Message :=
  receiveStep decCtx inflateCtx oneShotCtx stComp (Raw.bytes chunk1)

def c2step2 : ClientState × Except RecvError Message :=
  receiveStep decCtx inflateCtx oneShotCtx c2step1.1 (Raw.bytes chunk2)

def c2step3 : ClientState × Except RecvError Message :=
  receiveStep decCtx inflateCtx oneShotCtx c2step2.1 (Raw.bytes chunk3)

/-- Claim C2 (code bug): with compression enabled, feeding three chunks of
which only the third ends in `00 00 FF FF` does NOT silently buffer chunks 1
and 2 — `_receive` hands each raw incomplete chunk to the codec, which fails,
so an `EncodingError` is raised after chunk 1 and after chunk 2 (the buffer is
nevertheless retained); after chunk 3 the buffer ends with the terminator, is
decompressed as one unit, yields exactly one message, and is cleared. -/
theorem frame_incomplete_chunk_eval :
    c2step1.2 = Except.error (RecvError.encodingError jsonErrMsg) ∧
    c2step1.1.buffer = chunk1 ∧
    c2step2.2 = Except.error (RecvError.encodingError jsonErrMsg) ∧
    c2step2.1.buffer = chunk1 ++ chunk2 ∧
    c2step3.2 = Except.ok readyMsg ∧
    c2step3.1.buffer = [] :=
  ⟨rfl, rfl, rfl, rfl, rfl, rfl⟩

/-- Claim C4: at a heartbeat tick, if the previous beat was acknowledged
(`awaitingAck = false`) exactly one heartbeat carrying the last known
sequence number is sent and `awaitingAck` becomes true; if it was not
acknowledged, the tick triggers resume and sends nothing; and a
heartbeat-acknowledgement clears `awaitingAck`, so the next tick sends a
heartbeat rather than resuming. -/
theorem heartbeat_tick_spec (st : ClientState) :
    (awaitingAck st = false →
      heartbeatTick st = ({ st with hasAck := false }, HBAction.sendHeartbeat st.lastSequence) ∧
      awaitingAck (heartbeatTick st).1 = true) ∧
    (awaitingAck st = true →
      heartbeatTick st = (st, HBAction.triggerResume)) ∧
    (awaitingAck (onHeartbeatAck st) = false ∧
      (heartbeatTick (onHeartbeatAck st)).2 = HBAction.sendHeartbeat st.lastSequence) := by
  unfold awaitingAck heartbeatTick onHeartbeatAck
  cases h : st.hasAck <;> simp

def hbStA : ClientState :=
  { initClient "wss://gateway.discord.gg" Encoding.json true none none with
      running := true, lastSequence := some 42 }

def hbStB : ClientState := { hbStA with hasAck := false }

/-- Witness for `heartbeat_tick_spec` at concrete states with the
acknowledgement flag in each polarity. -/
theorem heartbeat_tick_spec_witness :
    heartbeatTick hbStA = ({ hbStA with hasAck := false }, HBAction.sendHeartbeat (some 42)) ∧
    heartbeatTick hbStB = (hbStB, HBAction.triggerResume) ∧
    awaitingAck (onHeartbeatAck hbStB) = false :=
  ⟨((heartbeat_tick_spec hbStA).1 rfl).1,
   (heartbeat_tick_spec hbStB).2.1 rfl,
   (heartbeat_tick_spec hbStB).2.2.1⟩

def shard0Client : ClientState :=
  { initClient "wss://gateway.discord.gg" Encoding.json true (some 0) (some 4) with
      token := "token123" }

/-- Claim C5 (code bug): shard index 0 with shard count 4 is silently
omitted from the identify payload, because `if self.shard_id and
self.shard_count` is falsy at 0; a nonzero index is included. -/
theorem shard_zero_omitted_eval :
    lookupField (identifyFields "Linux" shard0Client) "shard" = none ∧
    lookupField (identifyFields "Linux" { shard0Client with shardId := some 2 }) "shard" =
      some (Json.arr [Json.num 2, Json.num 4]) :=
  ⟨rfl, rfl⟩

/-- Claim C8 (corrected): the acknowledged flag `_has_ack` starts true at
client construction — so `awaitingAck` starts false — and a handshake-hello
only records the interval without resetting the flag; at the first tick of a
fresh connection the monitor therefore sends a heartbeat. -/
theorem awaiting_ack_init (url : String) (enc : Encoding) (comp : Bool)
    (si sc : Option Int) (st : ClientState) (i : Int) :
    awaitingAck (initClient url enc comp si sc) = false ∧
    awaitingAck (onHello st i) = awaitingAck st ∧
    (heartbeatTick (initClient url enc comp si sc)).2 = HBAction.sendHeartbeat none := by
  refine ⟨rfl, rfl, rfl⟩

/-- Counterexample to claim C8 as stated: right after construction and a
handshake-hello, `awaitingAck` is false, not true, and the first tick sends
a heartbeat instead of finding the monitor awaiting an acknowledgement. -/
theorem awaiting_ack_starts_false_counterexample :
    awaitingAck (onHello (initClient "wss://gateway.discord.gg" Encoding.json true none none) 45000)
      = false ∧
    (heartbeatTick (onHello
        (initClient "wss://gateway.discord.gg" Encoding.json true none none) 45000)).2
      = HBAction.sendHeartbeat none :=
  ⟨rfl, rfl⟩

/-- Claim C9: every outbound command is wrapped as an `op`/`d` envelope and
serialized with `json.dumps`, independently of the configured codec: the
frame sent is the same for any two client states, and even a client
configured with the `etf` encoding sends the JSON text. -/
theorem send_always_json (st₁ st₂ : ClientState) (op : OpArg) (d : Json) :
    sendFrame st₁ op d = sendFrame st₂ op d ∧
    sendFrame { st₁ with encoding := Encoding.etf } op d =
      (resolveOpcode op).map (fun n => Json.dumps (Json.obj [("op", Json.num n), ("d", d)])) :=
  ⟨rfl, rfl⟩

def resumeSt : ClientState :=
  { initClient "wss://gateway.discord.gg" Encoding.json true none none with
      running := true, token := "tk", sessionId := Json.str "sess1", lastSequence := some 9 }

/-- Claim C7 (code bug): `resume()` on a connected client does cancel the old
epoch's tasks before opening the new transport, but after sending the resume
command it calls `on_open`, which spawns the receive loop and sends an
IDENTIFY command; the heartbeat loop is not relaunched (`on_resume`, which
would spawn both loops, is never invoked). -/
theorem resume_trace_eval :
    resumeTrace "Linux" resumeSt =
      [Action.cancelTasks, Action.openConn,
       Action.send "RESUME" (Json.obj
         [("token", Json.str "tk"), ("session_id", Json.str "sess1"), ("seq", Json.num 9)]),
       Action.spawnReceiveLoop,
       Action.send "IDENTIFY" (Json.obj
         [("token", Json.str "tk"),
          ("properties", Json.obj
            [("$os", Json.str "Linux"),
             ("$browser", Json.str "clamor"),
             ("$device", Json.str "clamor")]),
          ("compress", Json.bool true),
          ("large_threshold", Json.num 250)])] ∧
    (resumeTrace "Linux" resumeSt).filterMap sendOpName = ["RESUME", "IDENTIFY"] ∧
    (resumeTrace "Linux" resumeSt).any isSpawnHeartbeat = false ∧
    onResumeTrace = [Action.spawnHeartbeatLoop, Action.spawnReceiveLoop] :=
  ⟨rfl, rfl, rfl, rfl⟩

/-- Claim C6: the resume payload contains exactly the token, session id and
last-seen sequence number of the state at the moment the payload is built;
the payload depends on nothing else, so any two states agreeing on those
three fields (e.g. the snapshot and a later mutation of unrelated state)
yield the same payload. -/
theorem resume_payload_snapshot (st st' : ClientState)
    (htok : st.token = st'.token) (hsid : st.sessionId = st'.sessionId)
    (hseq : st.lastSequence = st'.lastSequence) :
    (resumePayloadFields st).map Prod.fst = ["token", "session_id", "seq"] ∧
    lookupField (resumePayloadFields st) "token" = some (Json.str st.token) ∧
    lookupField (resumePayloadFields st) "session_id" = some st.sessionId ∧
    lookupField (resumePayloadFields st) "seq" = some (jsonOfOptInt st.lastSequence) ∧
    resumePayloadFields st = resumePayloadFields st' := by
  refine ⟨rfl, rfl, rfl, rfl, ?_⟩
  simp only [resumePayloadFields, htok, hsid, hseq]

def snapA : ClientState :=
  { initClient "wss://gateway.discord.gg" Encoding.json true none none with
      token := "tk", sessionId := Json.str "sess1", lastSequence := some 7 }

def snapB : ClientState :=
  { snapA with running := true, buffer := [1, 2], hasAck := false, interval := 45000 }

/-- Witness for `resume_payload_snapshot`: a snapshot state and a mutation of
its connection-level fields produce the same resume payload. -/
theorem resume_payload_snapshot_witness :
    (resumePayloadFields snapA).map Prod.fst = ["token", "session_id", "seq"] ∧
    lookupField (resumePayloadFields snapA) "token" = some (Json.str snapA.token) ∧
    lookupField (resumePayloadFields snapA) "session_id" = some snapA.sessionId ∧
    lookupField (resumePayloadFields snapA) "seq" = some (jsonOfOptInt snapA.lastSequence) ∧
    resumePayloadFields snapA = resumePayloadFields snapB :=
  resume_payload_snapshot snapA snapB rfl rfl rfl

theorem find?_append_or {α : Type} (p : α → Bool) :
    ∀ l₁ l₂ : List α, (l₁ ++ l₂).find? p =
      match l₁.find? p with
      | some x => some x
      | none => l₂.find? p
  | [], _ => by simp [List.find?]
  | a :: l₁, l₂ => by
    cases h : p a with
    | true => simp [List.find?, h]
    | false => simp [List.find?, h, find?_append_or p l₁ l₂]

/-- Claim C1 (corrected): the stored sequence after any message list equals
the `s` field of the last message whose `s` is present and truthy (non-null,
non-zero), or the prior value when there is none — the update fires iff the
field is truthy, not iff it is present, and the stored value is simply
overwritten, so it decreases whenever a later truthy sequence is smaller. -/
theorem sequence_update_characterization (st : ClientState) (msgs : List Message) :
    (processSequence st msgs).lastSequence =
      match msgs.reverse.find? (fun msg => pyTruthy msg.s) with
      | some msg => msg.s
      | none => st.lastSequence := by
  induction msgs generalizing st with
  | nil => rfl
  | cons m ms ih =>
    show (processSequence (applySequence st m) ms).lastSequence = _
    rw [ih, List.reverse_cons, find?_append_or]
    cases hfind : ms.reverse.find? (fun msg => pyTruthy msg.s) with
    | some mx => rfl
    | none =>
      cases ht : pyTruthy m.s with
      | true => simp [List.find?, ht, applySequence]
      | false => simp [List.find?, ht, applySequence]

def msgSeq (n : Int) : Message :=
  { op := 0, t := some "MESSAGE_CREATE", s := some n, d := Json.null }

/-- Counterexample to claim C1 as stated: a message carrying `s = 5` followed
by one carrying `s = 3` leaves the stored sequence at 3 — it decreased from 5
— and a message whose `s` field is present but zero does not update the
stored sequence at all. -/
theorem seq_nonmonotone_counterexample :
    (processSequence stComp [msgSeq 5]).lastSequence = some 5 ∧
    (processSequence stComp [msgSeq 5, msgSeq 3]).lastSequence = some 3 ∧
    (processSequence { stComp with lastSequence := some 7 } [msgSeq 0]).lastSequence = some 7 :=
  ⟨rfl, rfl, rfl⟩

theorem preprocess_lastSequence (inflate oneShot : List Nat → Option String)
    (st : ClientState) (frame : Raw) :
    (preprocess inflate oneShot st frame).1.lastSequence = st.lastSequence := by
  unfold preprocess
  repeat' split <;> try rfl

/-- Claim C10: whenever `_receive` raises on a frame — in particular when the
codec decode fails with an `EncodingError` — the stored last-seen sequence
number is unchanged: the sequence update runs only after a successful
decode. -/
theorem sequence_unchanged_on_decode_error
    (dec : Raw → Except String Message) (inflate oneShot : List Nat → Option String)
    (st : ClientState) (frame : Raw) (e : RecvError)
    (h : (receiveStep dec inflate oneShot st frame).2 = Except.error e) :
    (receiveStep dec inflate oneShot st frame).1.lastSequence = st.lastSequence := by
  have hp := preprocess_lastSequence inflate oneShot st frame
  unfold receiveStep at h ⊢
  cases hpp : preprocess inflate oneShot st frame with
  | mk st₁ r =>
    rw [hpp] at hp
    rw [hpp] at h
    cases r with
    | error e₁ => exact hp
    | ok raw =>
      try dsimp only
      try dsimp only at h
      cases hd : dec raw with
      | error e₁ => exact hp
      | ok m => rw [hd] at h; simp at h

/-- Witness for `sequence_unchanged_on_decode_error` at a concrete frame the
test codec rejects. -/
theorem sequence_unchanged_on_decode_error_witness :
    (receiveStep decCtx inflateCtx oneShotCtx stRun (Raw.text "\x7bbad")).1.lastSequence =
      stRun.lastSequence :=
  sequence_unchanged_on_decode_error decCtx inflateCtx oneShotCtx stRun (Raw.text "\x7bbad")
    (RecvError.encodingError jsonErrMsg) rfl

/-- Claim C3 (corrected): a codec failure on one frame is reported as an
`EncodingError` carrying the original decode error message, but nothing in
`_receive_task` catches it: the loop terminates at the failing frame, emits
nothing for it, and never processes the frames after it. -/
theorem decode_failure_propagates
    (dec : Raw → Except String Message) (inflate oneShot : List Nat → Option String)
    (st : ClientState) (f : Raw) (fs : List Raw) (r : Raw) (e : String)
    (hrun : st.running = true)
    (hpre : (preprocess inflate oneShot st f).2 = Except.ok r)
    (hdec : dec r = Except.error e) :
    receiveTask dec inflate oneShot st (f :: fs) =
      ⟨(preprocess inflate oneShot st f).1, [], some (RecvError.encodingError e)⟩ := by
  have hstep : receiveStep dec inflate oneShot st f =
      ((preprocess inflate oneShot st f).1, Except.error (RecvError.encodingError e)) := by
    unfold receiveStep
    cases hpp : preprocess inflate oneShot st f with
    | mk st₁ rr =>
      rw [hpp] at hpre
      have hpre' : rr = Except.ok r := hpre
      subst hpre'
      simp [hdec]
  simp only [receiveTask, hrun, hstep]
  simp

/-- Counterexample to claim C3 as stated: a frame the codec rejects followed
by a perfectly decodable frame — the loop emits nothing at all and stops with
the `EncodingError`; the second frame is never processed, so the receive loop
does not continue past a decode failure. -/
theorem decode_failure_stops_loop_counterexample :
    receiveTask decCtx inflateCtx oneShotCtx stRun [Raw.text "\x7bbad", Raw.text okText] =
      ⟨stRun, [], some (RecvError.encodingError jsonErrMsg)⟩ :=
  rfl

/-- Witness for `decode_failure_propagates` at a concrete rejected frame. -/
theorem decode_failure_propagates_witness :
    receiveTask decCtx inflateCtx oneShotCtx stRun
        [Raw.text "\x7bbad", Raw.text okText, Raw.text okText] =
      ⟨stRun, [], some (RecvError.encodingError jsonErrMsg)⟩ :=
  decode_failure_propagates decCtx inflateCtx oneShotCtx stRun (Raw.text "\x7bbad")
    [Raw.text okText, Raw.text okText] (Raw.text "\x7bbad") jsonErrMsg rfl rfl rfl

end Clamor
